import Mathlib

/-!
# Verification of the NRR (Net Run Rate) computation engine

Shallow embedding of the repository's core computation code
(`src/utils/nrr-calculate.ts` and `src/services/nrr.service.ts`,
richest variant) over exact rational arithmetic, together with
theorems settling the frozen claims about it.

JavaScript numbers are modelled as `ℚ`; `Math.trunc` is truncation
toward zero; thrown JS errors are modelled with `Except` over a
structured error type.
-/

deriving instance DecidableEq for Except

/-- Truncation toward zero of a rational to an integer (JS `Math.trunc`). -/
def ratTrunc (q : ℚ) : ℤ := if q < 0 then ⌈q⌉ else ⌊q⌋

/-- `Math.trunc (q * 1000) / 1000`: truncation toward zero to three decimals. -/
def truncTo3 (q : ℚ) : ℚ := (ratTrunc (q * 1000) : ℚ) / 1000

/-- An `(overs, balls)` pair as stored on a team record (`Overs` in `types`).
Fields are rationals because JS numbers are; the service even adds a rational
overs count onto the `overs` field. -/
structure Overs where
  overs : ℚ
  balls : ℚ
deriving DecidableEq, Repr

/-- A league-table entry (`Team` in `types`, rich variant with `Overs` fields).
The source's `matches` field is called `matchesPlayed` here because `matches`
is a reserved word in Lean. -/
structure Team where
  name : String
  matchesPlayed : ℚ
  won : ℚ
  lost : ℚ
  nrr : ℚ
  forRuns : ℚ
  forOvers : Overs
  againstRuns : ℚ
  againstOvers : Overs
  points : ℚ
deriving DecidableEq, Repr

instance : Inhabited Team :=
  ⟨{ name := "", matchesPlayed := 0, won := 0, lost := 0, nrr := 0, forRuns := 0,
     forOvers := ⟨0, 0⟩, againstRuns := 0, againstOvers := ⟨0, 0⟩, points := 0 }⟩

/-- `convertOversToDecimal` on an `Overs` record: `overs.overs + overs.balls / 6`. -/
def convertOversToDecimal (o : Overs) : ℚ := o.overs + o.balls / 6

/-- `convertOversToDecimal` numeric overload: `overs + balls / 6`. -/
def convertOversToDecimalNum (overs balls : ℚ) : ℚ := overs + balls / 6

/-- `ballsToOversDecimal`: split a ball count into complete overs
(`Math.floor(balls / 6)`) and remainder (JS `%`, i.e. truncated remainder)
and recombine as decimal overs. -/
def ballsToOversDecimal (balls : ℤ) : ℚ :=
  convertOversToDecimalNum (balls.fdiv 6 : ℤ) (balls.tmod 6 : ℤ)

/-- `ballsToOversDisplay`: the digit-pair numeral
`parseFloat(\x7bcompleteOvers\x7d.\x7bremainingBalls\x7d)`.  For the
non-negative ball counts the service uses, the remainder is a single digit,
so the numeral equals `completeOvers + remainingBalls / 10`. -/
def ballsToOversDisplay (balls : ℤ) : ℚ :=
  (balls.fdiv 6 : ℤ) + (balls.tmod 6 : ℤ) / 10

/-- Structured stand-ins for the JS `Error`s thrown by the engine. -/
inductive InfeasReason where
  /-- `desiredPosition` is above the best possible position. -/
  | tooHigh (desired best : ℤ)
  /-- `desiredPosition` is below the worst possible position. -/
  | tooLow (desired worst : ℤ)
deriving DecidableEq, Repr

/-- The error kinds thrown across the engine. -/
inductive NErr where
  /-- "Total overs must be greater than 0" (Run-Rate Engine). -/
  | totalOvers
  /-- "Missing required fields". -/
  | missingFields
  /-- "Runs and overs must be positive". -/
  | nonPositiveInput
  /-- "Invalid team names.". -/
  | invalidTeams
  /-- "Desired position must be between 1 and N.". -/
  | badPosition
  /-- The Feasibility Analyzer's reason, rethrown by `calculateMatchImpact`. -/
  | infeasible (r : Option InfeasReason)
  /-- "Cannot achieve position N. Required NRR range is invalid.". -/
  | invalidBracket
  /-- JS `TypeError` from reading `.nrr` of `undefined` (negative index). -/
  | typeCrash
  /-- "Match overs and runs scored must be non-negative" (outcome search guards). -/
  | guardNonNegative
  /-- "Cannot score R runs in O overs" (chasing mode). -/
  | cannotScore (runs overs : ℚ)
deriving DecidableEq, Repr

/-- The untruncated revised-NRR value of `calculateRevisedNRR`
(the `nrr` local before `Math.trunc`). -/
def rawRevisedNRR (team : Team) (newForRuns newForOvers newAgainstRuns newAgainstOvers : ℚ) : ℚ :=
  (team.forRuns + newForRuns) / (convertOversToDecimal team.forOvers + newForOvers) -
    (team.againstRuns + newAgainstRuns) / (convertOversToDecimal team.againstOvers + newAgainstOvers)

/-- The value returned by `calculateRevisedNRR` when it does not throw. -/
def revisedNRRval (team : Team) (newForRuns newForOvers newAgainstRuns newAgainstOvers : ℚ) : ℚ :=
  truncTo3 (rawRevisedNRR team newForRuns newForOvers newAgainstRuns newAgainstOvers)

/-- `calculateRevisedNRR` (`nrr-calculate.ts`): add the hypothetical match
contribution to the cumulative totals, throw if either total-overs value is
`≤ 0`, otherwise return the truncated NRR difference. -/
def calculateRevisedNRR (team : Team) (newForRuns newForOvers newAgainstRuns newAgainstOvers : ℚ) :
    Except NErr ℚ :=
  if convertOversToDecimal team.forOvers + newForOvers ≤ 0 ∨
      convertOversToDecimal team.againstOvers + newAgainstOvers ≤ 0 then
    .error .totalOvers
  else
    .ok (revisedNRRval team newForRuns newForOvers newAgainstRuns newAgainstOvers)

/-- `getInitialData`: the fixed five-team starting table, in insertion order. -/
def getInitialData : List Team :=
  [ { name := "Chennai Super Kings", matchesPlayed := 7, won := 5, lost := 2, nrr := 0.771,
      forRuns := 1130, forOvers := ⟨133, 1⟩, againstRuns := 1071, againstOvers := ⟨138, 5⟩,
      points := 10 },
    { name := "Royal Challengers Bangalore", matchesPlayed := 7, won := 4, lost := 3, nrr := 0.597,
      forRuns := 1217, forOvers := ⟨140, 0⟩, againstRuns := 1066, againstOvers := ⟨131, 4⟩,
      points := 8 },
    { name := "Delhi Capitals", matchesPlayed := 7, won := 4, lost := 3, nrr := 0.319,
      forRuns := 1085, forOvers := ⟨126, 0⟩, againstRuns := 1136, againstOvers := ⟨137, 0⟩,
      points := 8 },
    { name := "Rajasthan Royals", matchesPlayed := 7, won := 3, lost := 4, nrr := 0.331,
      forRuns := 1066, forOvers := ⟨128, 2⟩, againstRuns := 1094, againstOvers := ⟨137, 1⟩,
      points := 6 },
    { name := "Mumbai Indians", matchesPlayed := 8, won := 2, lost := 6, nrr := -1.75,
      forRuns := 1003, forOvers := ⟨155, 2⟩, againstRuns := 1134, againstOvers := ⟨138, 1⟩,
      points := 4 } ]

/-- The JS sort comparator `(a, b) => b.points - a.points || b.nrr - a.nrr`
is negative (a sorts strictly before b) exactly here. -/
def teamBefore (a b : Team) : Bool :=
  decide (b.points < a.points ∨ (b.points = a.points ∧ b.nrr < a.nrr))

/-- Stable insertion into a list sorted by `teamBefore`: the new element goes
before the first element it is not strictly preceded by, matching the stable
order produced by the JS runtime's sort. -/
def insertTeam (t : Team) : List Team → List Team
  | [] => [t]
  | b :: l => if teamBefore b t then b :: insertTeam t l else t :: b :: l

/-- Stable sort by points descending, ties by NRR descending
(the Standings Ranker's ordering). -/
def sortTeams : List Team → List Team
  | [] => []
  | t :: ts => insertTeam t (sortTeams ts)

/-- The comparator `(a, b) => b.nrr - a.nrr` of the same-points subsort. -/
def nrrBefore (a b : Team) : Bool := decide (b.nrr < a.nrr)

/-- Stable insertion for the NRR-descending subsort. -/
def insertByNrr (t : Team) : List Team → List Team
  | [] => [t]
  | b :: l => if nrrBefore b t then b :: insertByNrr t l else t :: b :: l

/-- Stable sort by NRR descending (used on the same-points teams). -/
def sortByNrr : List Team → List Team
  | [] => []
  | t :: ts => insertByNrr t (sortByNrr ts)

/-- JS array indexing `l[i]` (an out-of-range or negative index is `undefined`). -/
def listAt (l : List Team) (i : ℤ) : Option Team :=
  if i < 0 then none else l.get? i.toNat

/-- `Math.max(...l.map(t => t.nrr))` for a nonempty list (the guarded uses). -/
def maxNrr : List Team → ℚ
  | [] => 0
  | h :: t => t.foldl (fun m x => max m x.nrr) h.nrr

/-- The `\x7b ...team, matches: +1, lost: +1 \x7d` copy used for the opponent. -/
def bumpLoss (t : Team) : Team :=
  { t with matchesPlayed := t.matchesPlayed + 1, lost := t.lost + 1 }

/-- Result record of `analyzePositionFeasibility`. -/
structure FeasibilityResult where
  achievable : Bool
  reason : Option InfeasReason
  teamsWithSamePoints : List Team
deriving DecidableEq, Repr

/-- `analyzePositionFeasibility` (`nrr.service.ts`): map the league onto the
post-win hypothetical, count the teams with strictly more / exactly equal
points, and compare `desiredPosition` against
`[teamsAbove + 1, teamsAbove + teamsLevel + 1]`. -/
def analyzePositionFeasibility (yourTeamAfterWin _opponentTeamAfterWin : Team)
    (allTeams : List Team) (desiredPosition _currentPosition : ℤ)
    (yourTeamName opponentTeamName : String) : FeasibilityResult :=
  let teamsAfterYourWin := allTeams.map (fun team =>
    if team.name = yourTeamName then yourTeamAfterWin
    else if team.name = opponentTeamName then bumpLoss team
    else team)
  let teamsWithSamePointsAfterWin := teamsAfterYourWin.filter (fun team =>
    decide (team.points = yourTeamAfterWin.points ∧ team.name ≠ yourTeamName))
  let teamsWithMorePointsAfterWin := teamsAfterYourWin.filter (fun team =>
    decide (yourTeamAfterWin.points < team.points))
  let bestPossiblePosition : ℤ := teamsWithMorePointsAfterWin.length + 1
  let worstPossiblePosition : ℤ :=
    teamsWithMorePointsAfterWin.length + teamsWithSamePointsAfterWin.length + 1
  if desiredPosition < bestPossiblePosition then
    { achievable := false,
      reason := some (.tooHigh desiredPosition bestPossiblePosition),
      teamsWithSamePoints := teamsWithSamePointsAfterWin }
  else if worstPossiblePosition < desiredPosition then
    { achievable := false,
      reason := some (.tooLow desiredPosition worstPossiblePosition),
      teamsWithSamePoints := teamsWithSamePointsAfterWin }
  else
    { achievable := true, reason := none,
      teamsWithSamePoints := teamsWithSamePointsAfterWin }

/-- The "other teams" list of the NRR Bracket Solver: everyone but `yourTeam`,
with the opponent's loss counters advanced, sorted by the ranking order. -/
def otherTeamsSorted (allTeams : List Team) (yourTeamName opponentTeamName : String) :
    List Team :=
  sortTeams ((allTeams.filter (fun t => decide (t.name ≠ yourTeamName))).map
    (fun t => if t.name = opponentTeamName then bumpLoss t else t))

/-- `minRequiredNRR` derived from the teams on strictly fewer points
(`highestNRRAmongLower + 0.001`, or the default `0.001` when none exist). -/
def minFromLowerPoints (sortedOtherTeams : List Team) (yourPoints : ℚ) : ℚ :=
  let teamsWithFewerPoints := sortedOtherTeams.filter (fun t => decide (t.points < yourPoints))
  if teamsWithFewerPoints.isEmpty then 0.001 else maxNrr teamsWithFewerPoints + 0.001

/-- Lines 579–634 of `calculateRequiredNRRRange`: derive the raw
`(minRequiredNRR, maxAllowedNRR)` pair before the special cases.  Reading
`.nrr` of an out-of-range (negative) index is the JS `TypeError` crash. -/
def bracketCore (yourTeamAfterWin : Team) (allTeams : List Team) (desiredPosition : ℤ)
    (yourTeamName opponentTeamName : String) : Except NErr (ℚ × ℚ) :=
  let sortedOtherTeams := otherTeamsSorted allTeams yourTeamName opponentTeamName
  let teamsWithSamePoints := sortedOtherTeams.filter (fun t =>
    decide (t.points = yourTeamAfterWin.points))
  if teamsWithSamePoints.isEmpty then
    .ok (minFromLowerPoints sortedOtherTeams yourTeamAfterWin.points, 999)
  else
    let sortedSamePointTeams := sortByNrr teamsWithSamePoints
    let teamsAbove := desiredPosition - 1
    let teamsWithMorePoints : ℤ := (sortedOtherTeams.filter (fun t =>
      decide (yourTeamAfterWin.points < t.points))).length
    let samePointTeamsAbove := teamsAbove - teamsWithMorePoints
    let maxAllowedNRR : ℚ :=
      if 0 < samePointTeamsAbove ∧ samePointTeamsAbove ≤ sortedSamePointTeams.length then
        ((listAt sortedSamePointTeams (samePointTeamsAbove - 1)).getD default).nrr - 0.001
      else 999
    if samePointTeamsAbove < sortedSamePointTeams.length then
      match listAt sortedSamePointTeams samePointTeamsAbove with
      | none => .error .typeCrash
      | some teamBelowUs => .ok (teamBelowUs.nrr + 0.001, maxAllowedNRR)
    else
      .ok (minFromLowerPoints sortedOtherTeams yourTeamAfterWin.points, maxAllowedNRR)

/-- The `if dp > 1` fallback upper bound
`sortedOtherTeams[desiredPosition - 2]?.nrr - 0.001 || 999`: a missing slot
gives `NaN  || 999 = 999`, and — because `0` is falsy in JS — a difference of
exactly `0` also gives `999`. -/
def fallbackUpper (allTeams : List Team) (desiredPosition : ℤ)
    (yourTeamName opponentTeamName : String) : ℚ :=
  match listAt (otherTeamsSorted allTeams yourTeamName opponentTeamName) (desiredPosition - 2) with
  | none => 999
  | some t => if t.nrr - 0.001 = 0 then 999 else t.nrr - 0.001

/-- Lines 579–649: the full `(minRequiredNRR, maxAllowedNRR)` derivation,
including the `desiredPosition == 1` special case, the `-999` reset and the
fallback upper bound — everything before the final validation. -/
def bracketDerive (yourTeamAfterWin : Team) (allTeams : List Team) (desiredPosition : ℤ)
    (yourTeamName opponentTeamName : String) : Except NErr (ℚ × ℚ) :=
  match bracketCore yourTeamAfterWin allTeams desiredPosition yourTeamName opponentTeamName with
  | .error e => .error e
  | .ok (mn, mx) =>
    let mx1 := if desiredPosition = 1 then 999 else mx
    let mn1 := if mn = -999 then 0.001 else mn
    let mx2 := if mx1 = 999 ∧ 1 < desiredPosition then
        fallbackUpper allTeams desiredPosition yourTeamName opponentTeamName
      else mx1
    .ok (mn1, mx2)

/-- The bracket returned by `calculateRequiredNRRRange`. -/
structure NRRRange where
  minNRR : ℚ
  maxNRR : ℚ
deriving DecidableEq, Repr

/-- `calculateRequiredNRRRange` (`nrr.service.ts`): derive the bracket and
throw "Required NRR range is invalid" when `minRequiredNRR ≥ maxAllowedNRR`
while `maxAllowedNRR` is not the `999` sentinel. -/
def calculateRequiredNRRRange (yourTeamAfterWin _opponentTeamAfterLoss : Team)
    (allTeams : List Team) (desiredPosition : ℤ)
    (yourTeamName opponentTeamName : String) : Except NErr NRRRange :=
  match bracketDerive yourTeamAfterWin allTeams desiredPosition yourTeamName opponentTeamName with
  | .error e => .error e
  | .ok (mn, mx) =>
    if mx ≤ mn ∧ mx ≠ 999 then .error .invalidBracket
    else .ok { minNRR := mn, maxNRR := mx }

/-- The raw (untruncated, inline) NRR the setting-a-total scan computes for a
candidate opponent score `r`. -/
def restrictRawNRR (yourTeam : Team) (matchOvers yourScore r : ℚ) : ℚ :=
  (yourTeam.forRuns + yourScore) / (convertOversToDecimal yourTeam.forOvers + matchOvers) -
    (yourTeam.againstRuns + r) / (convertOversToDecimal yourTeam.againstOvers + matchOvers)

/-- The scan's acceptance predicate: raw NRR at or above `minRequiredNRR`, and
below `maxAllowedNRR` plus the `0.000001` tolerance unless the latter is the
`999` sentinel. -/
def restrictAccept (yourTeam : Team) (matchOvers yourScore minRequiredNRR maxAllowedNRR r : ℚ) :
    Prop :=
  minRequiredNRR ≤ restrictRawNRR yourTeam matchOvers yourScore r ∧
    (maxAllowedNRR = 999 ∨ restrictRawNRR yourTeam matchOvers yourScore r ≤ maxAllowedNRR + 0.000001)

instance (yourTeam : Team) (matchOvers yourScore minRequiredNRR maxAllowedNRR r : ℚ) :
    Decidable (restrictAccept yourTeam matchOvers yourScore minRequiredNRR maxAllowedNRR r) := by
  unfold restrictAccept; infer_instance

/-- The first and last accepted value of an ascending scan of `0, 1, …, n-1`
(mirroring how the loop records `restrictRunsMin` once and keeps overwriting
`restrictRunsMax`). -/
def scanFirstLast (p : ℕ → Bool) (n : ℕ) : Option (ℕ × ℕ) :=
  (List.range n).foldl
    (fun st r => if p r then some ((st.map Prod.fst).getD r, r) else st) none

/-- Result record of `computeRestrictOpponentRuns` (the human-readable
`message` string is not modelled). -/
structure RestrictResult where
  restrictRunsMin : ℚ
  restrictRunsMax : ℚ
  revisedNRRMin : ℚ
  revisedNRRMax : ℚ
  impossible : Bool
deriving DecidableEq, Repr

/-- `computeRestrictOpponentRuns` (`nrr.service.ts`): scan candidate opponent
scores `0 … yourScore-1`; if none is accepted return the structured
`impossible` result with the two extreme recomputations as diagnostics,
otherwise the accepted boundary scores with the Run-Rate Engine's value at
each. -/
def computeRestrictOpponentRuns (yourTeam _opponentTeam : Team)
    (matchOvers yourScore minRequiredNRR maxAllowedNRR : ℚ) : Except NErr RestrictResult :=
  if matchOvers ≤ 0 ∨ yourScore < 0 then .error .guardNonNegative
  else
    let maxPossibleOpponentRuns := yourScore - 1
    match scanFirstLast
        (fun r => decide
          (restrictAccept yourTeam matchOvers yourScore minRequiredNRR maxAllowedNRR (r : ℚ)))
        ⌊yourScore⌋.toNat with
    | none =>
      match calculateRevisedNRR yourTeam yourScore matchOvers 0 matchOvers with
      | .error e => .error e
      | .ok bestCaseNRR =>
        match calculateRevisedNRR yourTeam yourScore matchOvers maxPossibleOpponentRuns
            matchOvers with
        | .error e => .error e
        | .ok worstCaseNRR =>
          .ok { restrictRunsMin := 0, restrictRunsMax := maxPossibleOpponentRuns,
                revisedNRRMin := worstCaseNRR, revisedNRRMax := bestCaseNRR,
                impossible := true }
    | some (f, l) =>
      match calculateRevisedNRR yourTeam yourScore matchOvers (l : ℚ) matchOvers with
      | .error e => .error e
      | .ok validNRRMin =>
        match calculateRevisedNRR yourTeam yourScore matchOvers (f : ℚ) matchOvers with
        | .error e => .error e
        | .ok validNRRMax =>
          .ok { restrictRunsMin := (f : ℚ), restrictRunsMax := (l : ℚ),
                revisedNRRMin := validNRRMin, revisedNRRMax := validNRRMax,
                impossible := false }

/-- The first `while` loop of the chasing refinement: advance the lower ball
count while it is within range and the recomputed NRR is outside the bracket.
`fuel` makes the recursion structural; callers pass enough for the loop to hit
its exit condition first. -/
def chaseMinLoop (yourTeam : Team) (matchOvers targetScore minRequiredNRR maxAllowedNRR : ℚ) :
    ℕ → ℤ → ℤ → Except NErr ℤ
  | 0, lo, _ => .ok lo
  | fuel + 1, lo, hi =>
    if hi < lo then .ok lo
    else
      match calculateRevisedNRR yourTeam (targetScore + 1) (ballsToOversDecimal lo) targetScore
          matchOvers with
      | .error e => .error e
      | .ok nrr =>
        if nrr ≤ maxAllowedNRR ∧ minRequiredNRR ≤ nrr then .ok lo
        else chaseMinLoop yourTeam matchOvers targetScore minRequiredNRR maxAllowedNRR fuel
          (lo + 1) hi

/-- The second `while` loop: walk the upper ball count down while the
recomputed NRR is below `minRequiredNRR`. -/
def chaseMaxLoop (yourTeam : Team) (matchOvers targetScore minRequiredNRR : ℚ) :
    ℕ → ℤ → ℤ → Except NErr ℤ
  | 0, _, hi => .ok hi
  | fuel + 1, lo, hi =>
    if hi < lo then .ok hi
    else
      match calculateRevisedNRR yourTeam (targetScore + 1) (ballsToOversDecimal hi) targetScore
          matchOvers with
      | .error e => .error e
      | .ok nrr =>
        if minRequiredNRR ≤ nrr then .ok hi
        else chaseMaxLoop yourTeam matchOvers targetScore minRequiredNRR fuel lo (hi - 1)

/-- Result record of `computeChaseOversToBeatNRR` (`message` not modelled;
`minOvers`/`maxOvers` are display-overs numerals). -/
structure ChaseResult where
  minOvers : ℚ
  maxOvers : ℚ
  revisedNRRMin : ℚ
  revisedNRRMax : ℚ
  impossible : Bool
deriving DecidableEq, Repr

/-- `computeChaseOversToBeatNRR` (`nrr.service.ts`): check the target is
scoreable at all (else throw "Cannot score … runs in … overs"), seed a ball
window from the closed-form estimate, evaluate the tie case, either return the
structured `impossible` diagnostics or refine the window with the two loops
and return the Run-Rate Engine's value at each boundary ball count. -/
def computeChaseOversToBeatNRR (yourTeam _opponentTeam : Team)
    (matchOvers targetScore minRequiredNRR maxAllowedNRR : ℚ) : Except NErr ChaseResult :=
  if matchOvers ≤ 0 ∨ targetScore < 0 then .error .guardNonNegative
  else
    let maxBalls : ℤ := ⌊matchOvers * 6⌋
    let yourScore := targetScore + 1
    let minBallsRequired : ℤ := ⌈yourScore / 6⌉
    if maxBalls < minBallsRequired then .error (.cannotScore yourScore matchOvers)
    else
      let runRateAgainst := (yourTeam.againstRuns + targetScore) /
        (convertOversToDecimal yourTeam.againstOvers + matchOvers)
      let totalForRuns := yourTeam.forRuns + yourScore
      let maxOvers := totalForRuns / (minRequiredNRR + runRateAgainst) -
        convertOversToDecimal yourTeam.forOvers
      let minOvers := if maxAllowedNRR = 999 then 0 else
        totalForRuns / (maxAllowedNRR + runRateAgainst) - convertOversToDecimal yourTeam.forOvers
      let minBalls : ℤ := max ⌈minOvers * 6⌉ minBallsRequired
      let adjustedMaxBalls : ℤ := min ⌊maxOvers * 6⌋ maxBalls
      match calculateRevisedNRR yourTeam targetScore matchOvers targetScore matchOvers with
      | .error e => .error e
      | .ok tieNRR =>
        if adjustedMaxBalls < minBalls ∧ (tieNRR < minRequiredNRR ∨ maxAllowedNRR < tieNRR) then
          match calculateRevisedNRR yourTeam yourScore (ballsToOversDecimal minBallsRequired)
              targetScore matchOvers with
          | .error e => .error e
          | .ok bestCaseNRR =>
            match calculateRevisedNRR yourTeam yourScore matchOvers targetScore matchOvers with
            | .error e => .error e
            | .ok worstCaseNRR =>
              .ok { minOvers := ballsToOversDisplay minBallsRequired,
                    maxOvers := ballsToOversDisplay maxBalls,
                    revisedNRRMin := worstCaseNRR, revisedNRRMax := bestCaseNRR,
                    impossible := true }
        else
          match chaseMinLoop yourTeam matchOvers targetScore minRequiredNRR maxAllowedNRR
              ((adjustedMaxBalls - minBalls).toNat + 1) minBalls adjustedMaxBalls with
          | .error e => .error e
          | .ok adjustedMinBalls =>
            match chaseMaxLoop yourTeam matchOvers targetScore minRequiredNRR
                ((adjustedMaxBalls - adjustedMinBalls).toNat + 1) adjustedMinBalls
                adjustedMaxBalls with
            | .error e => .error e
            | .ok finalMaxBalls =>
              match calculateRevisedNRR yourTeam yourScore (ballsToOversDecimal finalMaxBalls)
                  targetScore matchOvers with
              | .error e => .error e
              | .ok revisedNRRMin =>
                match calculateRevisedNRR yourTeam yourScore
                    (ballsToOversDecimal adjustedMinBalls) targetScore matchOvers with
                | .error e => .error e
                | .ok revisedNRRMax =>
                  .ok { minOvers := ballsToOversDisplay adjustedMinBalls,
                        maxOvers := ballsToOversDisplay finalMaxBalls,
                        revisedNRRMin := revisedNRRMin, revisedNRRMax := revisedNRRMax,
                        impossible := false }

/-- The toss outcome dimension of a request (already an enum after the
validator collaborator has run). -/
inductive Toss where
  | bat
  | bowl
deriving DecidableEq, Repr

/-- The request consumed by `calculateMatchImpact` (after schema validation;
JS falsiness of the empty string and of `0` is still re-checked inside). -/
structure MatchInput where
  yourTeam : String
  oppositionTeam : String
  runsScored : ℚ
  matchOvers : ℚ
  tossResult : Toss
  desiredPosition : ℤ
deriving DecidableEq, Repr

/-- The union of the two outcome-search answers. -/
inductive Answer where
  | bat (r : RestrictResult)
  | bowl (r : ChaseResult)
deriving DecidableEq, Repr

/-- The result object assembled by `calculateMatchImpact`. -/
structure ImpactResult where
  answer : Answer
  currentPosition : ℤ
  desiredPosition : ℤ
  requiredNRR : ℚ
  maxAllowedNRR : ℚ
  teamAtDesiredPosition : String
  positionAnalysis : FeasibilityResult
deriving DecidableEq, Repr

/-- `teams[name]` lookup in the (unique-keyed) league record. -/
def findTeam (teams : List Team) (name : String) : Option Team :=
  teams.find? (fun t => t.name == name)

/-- The hypothetical `yourTeamAfterWin` copy (`matches`, `won`, `points`,
`forRuns` advanced; `matchOvers` added onto the `overs` field). -/
def afterWin (t : Team) (runsScored matchOvers : ℚ) : Team :=
  { t with
    matchesPlayed := t.matchesPlayed + 1,
    won := t.won + 1,
    points := t.points + 2,
    forRuns := t.forRuns + runsScored,
    forOvers := ⟨t.forOvers.overs + matchOvers, t.forOvers.balls⟩ }

/-- The hypothetical `opponentTeamAfterLoss` copy. -/
def afterLoss (t : Team) (runsScored matchOvers : ℚ) : Team :=
  { t with
    matchesPlayed := t.matchesPlayed + 1,
    lost := t.lost + 1,
    againstRuns := t.againstRuns + runsScored,
    againstOvers := ⟨t.againstOvers.overs + matchOvers, t.againstOvers.balls⟩ }

/-- `calculateMatchImpact` (`nrr.service.ts`): validate the request, build the
post-win hypothetical league over the fixed `getInitialData` table, rank it,
run the Feasibility Analyzer (failing its reason when unachievable), solve the
NRR bracket and dispatch to the phase's outcome search. -/
def calculateMatchImpact (data : MatchInput) : Except NErr ImpactResult :=
  if data.yourTeam = "" ∨ data.oppositionTeam = "" ∨ data.matchOvers = 0 ∨
      data.desiredPosition = 0 then .error .missingFields
  else if data.runsScored < 0 ∨ data.matchOvers ≤ 0 then .error .nonPositiveInput
  else
    match findTeam getInitialData data.yourTeam, findTeam getInitialData data.oppositionTeam with
    | none, _ => .error .invalidTeams
    | some _, none => .error .invalidTeams
    | some yourTeam, some opponentTeam =>
      let yourTeamAfterWin0 := afterWin yourTeam data.runsScored data.matchOvers
      let opponentTeamAfterLoss0 := afterLoss opponentTeam data.runsScored data.matchOvers
      match calculateRevisedNRR yourTeamAfterWin0 data.runsScored data.matchOvers
          opponentTeam.againstRuns
          (opponentTeam.againstOvers.overs + opponentTeam.againstOvers.balls / 6) with
      | .error e => .error e
      | .ok yourNewNrr =>
        let yourTeamAfterWin := { yourTeamAfterWin0 with nrr := yourNewNrr }
        match calculateRevisedNRR opponentTeamAfterLoss0 0 data.matchOvers data.runsScored
            data.matchOvers with
        | .error e => .error e
        | .ok oppNewNrr =>
          let opponentTeamAfterLoss := { opponentTeamAfterLoss0 with nrr := oppNewNrr }
          let updatedTeams := getInitialData.map (fun t =>
            if t.name = data.yourTeam then yourTeamAfterWin
            else if t.name = data.oppositionTeam then opponentTeamAfterLoss
            else t)
          let sortedTeams := sortTeams updatedTeams
          if data.desiredPosition < 1 ∨ (sortedTeams.length : ℤ) < data.desiredPosition then
            .error .badPosition
          else
            let currentPosition : ℤ :=
              (sortedTeams.findIdx (fun t => t.name == data.yourTeam) : ℤ) + 1
            let positionAnalysis := analyzePositionFeasibility yourTeamAfterWin
              opponentTeamAfterLoss updatedTeams data.desiredPosition currentPosition
              data.yourTeam data.oppositionTeam
            if positionAnalysis.achievable then
              match calculateRequiredNRRRange yourTeamAfterWin opponentTeamAfterLoss
                  updatedTeams data.desiredPosition data.yourTeam data.oppositionTeam with
              | .error e => .error e
              | .ok nrrRange =>
                let teamAtDesiredPosition :=
                  ((listAt sortedTeams (data.desiredPosition - 1)).getD default).name
                match data.tossResult with
                | .bat =>
                  match computeRestrictOpponentRuns yourTeam opponentTeam data.matchOvers
                      data.runsScored nrrRange.minNRR nrrRange.maxNRR with
                  | .error e => .error e
                  | .ok restrictionRange =>
                    .ok { answer := .bat restrictionRange, currentPosition := currentPosition,
                          desiredPosition := data.desiredPosition,
                          requiredNRR := nrrRange.minNRR, maxAllowedNRR := nrrRange.maxNRR,
                          teamAtDesiredPosition := teamAtDesiredPosition,
                          positionAnalysis := positionAnalysis }
                | .bowl =>
                  match computeChaseOversToBeatNRR yourTeam opponentTeam data.matchOvers
                      data.runsScored nrrRange.minNRR nrrRange.maxNRR with
                  | .error e => .error e
                  | .ok oversRange =>
                    .ok { answer := .bowl oversRange, currentPosition := currentPosition,
                          desiredPosition := data.desiredPosition,
                          requiredNRR := nrrRange.minNRR, maxAllowedNRR := nrrRange.maxNRR,
                          teamAtDesiredPosition := teamAtDesiredPosition,
                          positionAnalysis := positionAnalysis }
            else .error (.infeasible positionAnalysis.reason)

/-- A three-team league used to exercise the bracket solver on concrete
inputs: the team above the desired slot holds exactly `0.001` NRR. -/
def cexTeamA : Team :=
  { name := "A", matchesPlayed := 0, won := 0, lost := 0, nrr := 0.001, forRuns := 0,
    forOvers := ⟨1, 0⟩, againstRuns := 0, againstOvers := ⟨1, 0⟩, points := 12 }

/-- The "your team" record of the concrete three-team league. -/
def cexTeamY : Team :=
  { name := "Y", matchesPlayed := 0, won := 0, lost := 0, nrr := 0.5, forRuns := 0,
    forOvers := ⟨1, 0⟩, againstRuns := 0, againstOvers := ⟨1, 0⟩, points := 10 }

/-- The lower-points opponent record of the concrete three-team league. -/
def cexTeamB : Team :=
  { name := "B", matchesPlayed := 0, won := 0, lost := 0, nrr := 0.2, forRuns := 0,
    forOvers := ⟨1, 0⟩, againstRuns := 0, againstOvers := ⟨1, 0⟩, points := 8 }

/-- The concrete three-team league snapshot. -/
def cexLeague : List Team := [cexTeamA, cexTeamY, cexTeamB]

/-- The Mumbai Indians record of `getInitialData`, as a standalone value. -/
def mumbaiTeam : Team :=
  { name := "Mumbai Indians", matchesPlayed := 8, won := 2, lost := 6, nrr := -1.75,
    forRuns := 1003, forOvers := ⟨155, 2⟩, againstRuns := 1134, againstOvers := ⟨138, 1⟩,
    points := 4 }

/-- The Rajasthan Royals record of `getInitialData`, as a standalone value. -/
def rajasthanTeam : Team :=
  { name := "Rajasthan Royals", matchesPlayed := 7, won := 3, lost := 4, nrr := 0.331,
    forRuns := 1066, forOvers := ⟨128, 2⟩, againstRuns := 1094, againstOvers := ⟨137, 1⟩,
    points := 6 }

/-- A concrete request: Mumbai Indians, batting first for 120 in 20 overs,
asking for position 1 — infeasible on points even after the presumed win. -/
def mumbaiReq : MatchInput :=
  { yourTeam := "Mumbai Indians", oppositionTeam := "Rajasthan Royals",
    runsScored := 120, matchOvers := 20, tossResult := .bat, desiredPosition := 1 }

/-- The post-win Mumbai record of `mumbaiReq` with its recomputed NRR. -/
def mumbaiAfterWin : Team := { afterWin mumbaiTeam 120 20 with nrr := -216 / 125 }

/-- The post-loss Rajasthan record of `mumbaiReq` with its recomputed NRR. -/
def rajasthanAfterLoss : Team := { afterLoss rajasthanTeam 120 20 with nrr := -343 / 1000 }

/-- The hypothetical league of `mumbaiReq` after the presumed Mumbai win. -/
def mumbaiUpdatedLeague : List Team :=
  getInitialData.map (fun t =>
    if t.name = "Mumbai Indians" then mumbaiAfterWin
    else if t.name = "Rajasthan Royals" then rajasthanAfterLoss
    else t)

/-! ## Helper lemmas -/

theorem ratTrunc_mono {q r : ℚ} (h : q ≤ r) : ratTrunc q ≤ ratTrunc r := by
  unfold ratTrunc
  by_cases hq : q < 0 <;> by_cases hr : r < 0 <;> simp [hq, hr]
  · exact Int.ceil_le_ceil h
  · calc ⌈q⌉ ≤ 0 := Int.ceil_le.mpr (by exact_mod_cast hq.le)
      _ ≤ ⌊r⌋ := Int.le_floor.mpr (by exact_mod_cast not_lt.mp hr)
  · exact absurd (h.trans_lt hr) hq
  · exact Int.floor_le_floor h

theorem truncTo3_mono {q r : ℚ} (h : q ≤ r) : truncTo3 q ≤ truncTo3 r := by
  unfold truncTo3
  have := ratTrunc_mono (mul_le_mul_of_nonneg_right h (by norm_num : (0:ℚ) ≤ 1000))
  have hcast : (ratTrunc (q * 1000) : ℚ) ≤ (ratTrunc (r * 1000) : ℚ) := by exact_mod_cast this
  linarith

theorem scanFirstLast_eq_none {p : ℕ → Bool} {n : ℕ} (h : ∀ r < n, p r = false) :
    scanFirstLast p n = none := by
  unfold scanFirstLast
  have : ∀ (l : List ℕ), (∀ r ∈ l, p r = false) →
      l.foldl (fun st r => if p r then some ((st.map Prod.fst).getD r, r) else st)
        (none : Option (ℕ × ℕ)) = none := by
    intro l
    induction l with
    | nil => intro _; rfl
    | cons a t ih =>
      intro hl
      have ha := hl a (List.mem_cons_self a t)
      rw [List.foldl_cons, if_neg (by simp [ha])]
      exact ih (fun r hr => hl r (List.mem_cons_of_mem a hr))
  exact this _ (fun r hr => h r (List.mem_range.mp hr))

/-! ## Claims about the Run-Rate Engine and Overs Arithmetic -/

/-- C1: with both total-overs sums positive, `calculateRevisedNRR` returns the
difference of the two run rates computed over the summed totals, truncated
toward zero to three decimal places (`1.2349 ↦ 1.234`, `-1.2349 ↦ -1.234`,
never rounded); on the team `forRuns=1000, forOvers=100.0, againstRuns=900,
againstOvers=100.0` with deltas `(50, 10, 40, 10)` the result is exactly
`1.000`. -/
theorem c1_revised_nrr_formula :
    (∀ (team : Team) (df dfo da dao : ℚ),
      0 < convertOversToDecimal team.forOvers + dfo →
      0 < convertOversToDecimal team.againstOvers + dao →
      calculateRevisedNRR team df dfo da dao =
        .ok ((ratTrunc (((team.forRuns + df) / (convertOversToDecimal team.forOvers + dfo) -
            (team.againstRuns + da) / (convertOversToDecimal team.againstOvers + dao)) *
            1000) : ℚ) / 1000)) ∧
    truncTo3 (12349 / 10000) = 1234 / 1000 ∧
    truncTo3 (-(12349 / 10000)) = -(1234 / 1000) ∧
    calculateRevisedNRR
      { name := "T", matchesPlayed := 0, won := 0, lost := 0, nrr := 0, forRuns := 1000,
        forOvers := ⟨100, 0⟩, againstRuns := 900, againstOvers := ⟨100, 0⟩, points := 0 }
      50 10 40 10 = .ok 1 := by
  refine ⟨?_, ?_, ?_, ?_⟩
  · intro team df dfo da dao hf ha
    rw [calculateRevisedNRR, if_neg (by push_neg; exact ⟨hf, ha⟩)]
    rfl
  · norm_num [truncTo3, ratTrunc]
  · have h1 : (-(12349 / 10000) : ℚ) * 1000 = -(12349 / 10) := by norm_num
    norm_num [truncTo3, ratTrunc, h1, Int.ceil_neg]
  · rw [calculateRevisedNRR, if_neg (by norm_num [convertOversToDecimal])]
    norm_num [revisedNRRval, rawRevisedNRR, truncTo3, ratTrunc, convertOversToDecimal]

/-- Witness for C1 at the spec's Scenario 1 input. -/
theorem c1_revised_nrr_formula_witness :
    calculateRevisedNRR
      { name := "T", matchesPlayed := 0, won := 0, lost := 0, nrr := 0, forRuns := 1000,
        forOvers := ⟨100, 0⟩, againstRuns := 900, againstOvers := ⟨100, 0⟩, points := 0 }
      50 10 40 10 =
      .ok ((ratTrunc (((1000 + 50) / (convertOversToDecimal ⟨100, 0⟩ + 10) -
          (900 + 40) / (convertOversToDecimal ⟨100, 0⟩ + 10)) * 1000) : ℚ) / 1000) :=
  c1_revised_nrr_formula.1
    { name := "T", matchesPlayed := 0, won := 0, lost := 0, nrr := 0, forRuns := 1000,
      forOvers := ⟨100, 0⟩, againstRuns := 900, againstOvers := ⟨100, 0⟩, points := 0 }
    50 10 40 10 (by norm_num [convertOversToDecimal]) (by norm_num [convertOversToDecimal])

/-- C7: `calculateRevisedNRR` throws its domain error exactly when one of the
two computed total-overs values is `≤ 0`; under positivity of both it returns
the numeric revised NRR. -/
theorem c7_total_overs_guard :
    ∀ (team : Team) (df dfo da dao : ℚ),
      (calculateRevisedNRR team df dfo da dao = .error .totalOvers ↔
        (convertOversToDecimal team.forOvers + dfo ≤ 0 ∨
          convertOversToDecimal team.againstOvers + dao ≤ 0)) ∧
      (0 < convertOversToDecimal team.forOvers + dfo →
        0 < convertOversToDecimal team.againstOvers + dao →
        calculateRevisedNRR team df dfo da dao = .ok (revisedNRRval team df dfo da dao)) := by
  intro team df dfo da dao
  constructor
  · unfold calculateRevisedNRR
    split
    · next h => simpa using h
    · next h => simpa using h
  · intro hf ha
    rw [calculateRevisedNRR, if_neg (by push_neg; exact ⟨hf, ha⟩)]

/-- Witness for C7 at a concrete team and deltas (both conjuncts applied at
the `1000/100.0 − 900/100.0` team, deltas `(50, 10, 40, 10)`). -/
theorem c7_total_overs_guard_witness :
    ¬(calculateRevisedNRR
        { name := "T", matchesPlayed := 0, won := 0, lost := 0, nrr := 0, forRuns := 1000,
          forOvers := ⟨100, 0⟩, againstRuns := 900, againstOvers := ⟨100, 0⟩, points := 0 }
        50 10 40 10 = .error .totalOvers) ∧
    calculateRevisedNRR
      { name := "T", matchesPlayed := 0, won := 0, lost := 0, nrr := 0, forRuns := 1000,
        forOvers := ⟨100, 0⟩, againstRuns := 900, againstOvers := ⟨100, 0⟩, points := 0 }
      50 10 40 10 =
      .ok (revisedNRRval
        { name := "T", matchesPlayed := 0, won := 0, lost := 0, nrr := 0, forRuns := 1000,
          forOvers := ⟨100, 0⟩, againstRuns := 900, againstOvers := ⟨100, 0⟩, points := 0 }
        50 10 40 10) := by
  have h := c7_total_overs_guard
    { name := "T", matchesPlayed := 0, won := 0, lost := 0, nrr := 0, forRuns := 1000,
      forOvers := ⟨100, 0⟩, againstRuns := 900, againstOvers := ⟨100, 0⟩, points := 0 }
    50 10 40 10
  constructor
  · intro hc
    rcases h.1.mp hc with h' | h' <;> norm_num [convertOversToDecimal] at h'
  · exact h.2 (by norm_num [convertOversToDecimal]) (by norm_num [convertOversToDecimal])

/-- Counterexample for C5: strict monotonicity fails through the three-decimal
truncation — at the team `0/1 − r/10000`, conceding 1 and conceding 2 both
truncate to `0.000`, so the strict inequality the claim asserts is false. -/
theorem c5_strict_monotonicity_counterexample :
    calculateRevisedNRR
      { name := "T", matchesPlayed := 0, won := 0, lost := 0, nrr := 0, forRuns := 0,
        forOvers := ⟨1, 0⟩, againstRuns := 0, againstOvers := ⟨10000, 0⟩, points := 0 }
      0 0 1 0 = .ok 0 ∧
    calculateRevisedNRR
      { name := "T", matchesPlayed := 0, won := 0, lost := 0, nrr := 0, forRuns := 0,
        forOvers := ⟨1, 0⟩, againstRuns := 0, againstOvers := ⟨10000, 0⟩, points := 0 }
      0 0 2 0 = .ok 0 ∧
    ¬((0 : ℚ) > 0) := by
  refine ⟨?_, ?_, by norm_num⟩ <;>
  · rw [calculateRevisedNRR, if_neg (by norm_num [convertOversToDecimal])]
    rw [revisedNRRval, rawRevisedNRR, truncTo3, ratTrunc]
    norm_num [convertOversToDecimal, Int.ceil_neg]

/-- C5 (amended): for fixed for-side and overs deltas, with both totals
positive, the *raw* revised NRR is strictly decreasing in the conceded-runs
delta, and the value `calculateRevisedNRR` returns is (weakly) non-increasing
— strictness does not survive the three-decimal truncation. -/
theorem c5_monotonicity_amended :
    ∀ (team : Team) (df dfo dao r1 r2 : ℚ),
      0 < convertOversToDecimal team.forOvers + dfo →
      0 < convertOversToDecimal team.againstOvers + dao →
      r1 < r2 →
      rawRevisedNRR team df dfo r2 dao < rawRevisedNRR team df dfo r1 dao ∧
      revisedNRRval team df dfo r2 dao ≤ revisedNRRval team df dfo r1 dao := by
  intro team df dfo dao r1 r2 _hf ha hr
  have hraw : rawRevisedNRR team df dfo r2 dao < rawRevisedNRR team df dfo r1 dao := by
    unfold rawRevisedNRR
    have : (team.againstRuns + r1) / (convertOversToDecimal team.againstOvers + dao) <
        (team.againstRuns + r2) / (convertOversToDecimal team.againstOvers + dao) :=
      (div_lt_div_iff_of_pos_right ha).mpr (by linarith)
    linarith
  exact ⟨hraw, truncTo3_mono hraw.le⟩

/-- Witness for C5's amended theorem at the counterexample team, `r1 = 1`,
`r2 = 2`. -/
theorem c5_monotonicity_amended_witness :
    rawRevisedNRR
      { name := "T", matchesPlayed := 0, won := 0, lost := 0, nrr := 0, forRuns := 0,
        forOvers := ⟨1, 0⟩, againstRuns := 0, againstOvers := ⟨10000, 0⟩, points := 0 }
      0 0 2 0 <
      rawRevisedNRR
        { name := "T", matchesPlayed := 0, won := 0, lost := 0, nrr := 0, forRuns := 0,
          forOvers := ⟨1, 0⟩, againstRuns := 0, againstOvers := ⟨10000, 0⟩, points := 0 }
        0 0 1 0 ∧
    revisedNRRval
      { name := "T", matchesPlayed := 0, won := 0, lost := 0, nrr := 0, forRuns := 0,
        forOvers := ⟨1, 0⟩, againstRuns := 0, againstOvers := ⟨10000, 0⟩, points := 0 }
      0 0 2 0 ≤
      revisedNRRval
        { name := "T", matchesPlayed := 0, won := 0, lost := 0, nrr := 0, forRuns := 0,
          forOvers := ⟨1, 0⟩, againstRuns := 0, againstOvers := ⟨10000, 0⟩, points := 0 }
        0 0 1 0 :=
  c5_monotonicity_amended
    { name := "T", matchesPlayed := 0, won := 0, lost := 0, nrr := 0, forRuns := 0,
      forOvers := ⟨1, 0⟩, againstRuns := 0, againstOvers := ⟨10000, 0⟩, points := 0 }
    0 0 0 1 2 (by norm_num [convertOversToDecimal]) (by norm_num [convertOversToDecimal])
    (by norm_num)

/-- C8: for every non-negative integer ball count, `ballsToOversDecimal` is the
true fraction `balls / 6`; at `82` it is `13 + 4/6`, while `ballsToOversDisplay`
gives the digit-pair numeral `13.4`, which differs from the true fraction. -/
theorem c8_overs_round_trip :
    (∀ b : ℕ, ballsToOversDecimal (b : ℤ) = (b : ℚ) / 6) ∧
    ballsToOversDecimal 82 = 13 + 4 / 6 ∧
    ballsToOversDisplay 82 = 13.4 ∧
    ballsToOversDisplay 82 ≠ ballsToOversDecimal 82 := by
  have hdiv : ∀ b : ℕ, ballsToOversDecimal (b : ℤ) = (b : ℚ) / 6 := by
    intro b
    have h1 : ((b : ℤ).fdiv 6) = ((b / 6 : ℕ) : ℤ) := by
      exact_mod_cast (Int.ofNat_fdiv b 6).symm
    have h2 : ((b : ℤ).tmod 6) = ((b % 6 : ℕ) : ℤ) := by
      exact_mod_cast (Int.ofNat_tmod b 6).symm
    have h := Nat.div_add_mod b 6
    have hq : 6 * ((b / 6 : ℕ) : ℚ) + ((b % 6 : ℕ) : ℚ) = (b : ℚ) := by exact_mod_cast h
    rw [ballsToOversDecimal, convertOversToDecimalNum, h1, h2, Int.cast_natCast,
      Int.cast_natCast, eq_div_iff (by norm_num : (6 : ℚ) ≠ 0)]
    linarith [hq]
  have h82fd : ((82 : ℤ).fdiv 6) = 13 := by decide
  have h82tm : ((82 : ℤ).tmod 6) = 4 := by decide
  have hdec : ballsToOversDecimal 82 = 41 / 3 := by
    have h := hdiv 82
    norm_num at h
    exact h
  have hdisp : ballsToOversDisplay 82 = 13.4 := by
    rw [ballsToOversDisplay, h82fd, h82tm]
    norm_num
  refine ⟨hdiv, by rw [hdec]; norm_num, hdisp, ?_⟩
  rw [hdec, hdisp]
  norm_num

theorem cexLeague_sorted :
    otherTeamsSorted cexLeague "Y" "B" = [cexTeamA, bumpLoss cexTeamB] := by
  have hfm : (cexLeague.filter (fun t => decide (t.name ≠ "Y"))).map
      (fun t => if t.name = "B" then bumpLoss t else t) = [cexTeamA, bumpLoss cexTeamB] := by
    simp [cexLeague, List.filter, cexTeamA, cexTeamY, cexTeamB, bumpLoss]
  have hs2 : sortTeams [cexTeamA, bumpLoss cexTeamB] = [cexTeamA, bumpLoss cexTeamB] := by
    simp only [sortTeams, insertTeam, teamBefore, bumpLoss]
    norm_num [cexTeamA, cexTeamB]
  rw [otherTeamsSorted, hfm, hs2]

theorem cexLeague_core {dp : ℤ} :
    bracketCore cexTeamY cexLeague dp "Y" "B" = .ok (0.201, 999) := by
  rw [bracketCore, cexLeague_sorted]
  simp only [List.filter, minFromLowerPoints, maxNrr, bumpLoss]
  norm_num [cexTeamA, cexTeamY, cexTeamB, bumpLoss]

theorem cexLeague_derive2 :
    bracketDerive cexTeamY cexLeague 2 "Y" "B" = .ok (0.201, 999) := by
  have hfb : fallbackUpper cexLeague 2 "Y" "B" = 999 := by
    rw [fallbackUpper, cexLeague_sorted]
    norm_num [listAt, cexTeamA]
  rw [bracketDerive, cexLeague_core]
  norm_num [hfb]

theorem cexLeague_derive1 :
    bracketDerive cexTeamY cexLeague 1 "Y" "B" = .ok (0.201, 999) := by
  rw [bracketDerive, cexLeague_core]
  norm_num

/-! ## Claims about the NRR Bracket Solver -/

/-- C3: given the `(minRequiredNRR, maxAllowedNRR)` pair the solver derives,
`calculateRequiredNRRRange` throws exactly when `minRequiredNRR ≥
maxAllowedNRR` while the upper bound is not the open `999` sentinel; when the
upper bound is the sentinel it never throws, whatever `minRequiredNRR` is. -/
theorem c3_invalid_bracket_iff :
    ∀ (ytw otl : Team) (allTeams : List Team) (dp : ℤ) (yn onm : String) (mn mx : ℚ),
      bracketDerive ytw allTeams dp yn onm = .ok (mn, mx) →
      ((∃ e, calculateRequiredNRRRange ytw otl allTeams dp yn onm = .error e) ↔
        (mx ≤ mn ∧ mx ≠ 999)) ∧
      (mx = 999 → calculateRequiredNRRRange ytw otl allTeams dp yn onm = .ok ⟨mn, mx⟩) := by
  intro ytw otl allTeams dp yn onm mn mx h
  rw [calculateRequiredNRRRange, h]
  constructor
  · by_cases hc : mx ≤ mn ∧ mx ≠ 999
    · simp only [if_pos hc]
      exact ⟨fun _ => hc, fun _ => ⟨.invalidBracket, rfl⟩⟩
    · simp only [if_neg hc]
      exact ⟨fun ⟨e, he⟩ => absurd he (by simp), fun hcc => absurd hcc hc⟩
  · intro h999
    subst h999
    norm_num

/-- Witness for C3 at the concrete three-team league, desired position 2
(derived bracket `(0.201, 999)`). -/
theorem c3_invalid_bracket_iff_witness :
    ((∃ e, calculateRequiredNRRRange cexTeamY cexTeamB cexLeague 2 "Y" "B" = .error e) ↔
      ((999 : ℚ) ≤ 0.201 ∧ (999 : ℚ) ≠ 999)) ∧
    ((999 : ℚ) = 999 →
      calculateRequiredNRRRange cexTeamY cexTeamB cexLeague 2 "Y" "B" = .ok ⟨0.201, 999⟩) :=
  c3_invalid_bracket_iff cexTeamY cexTeamB cexLeague 2 "Y" "B" 0.201 999 cexLeague_derive2

/-- Counterexample for C6's fallback clause: at the three-team league the team
ranked immediately above slot 2 holds NRR `0.001`, so the claim demands upper
bound `0.001 − 0.001 = 0`; because `0` is falsy in JS, the code instead leaves
the `999` sentinel.  The desired position passes the feasibility check and no
upper bound was set from same-point teams (there are none). -/
theorem c6_fallback_counterexample :
    calculateRequiredNRRRange cexTeamY cexTeamB cexLeague 2 "Y" "B" = .ok ⟨0.201, 999⟩ ∧
    cexTeamA.nrr - 0.001 = 0 ∧
    (999 : ℚ) ≠ cexTeamA.nrr - 0.001 ∧
    (analyzePositionFeasibility cexTeamY cexTeamB cexLeague 2 1 "Y" "B").achievable = true := by
  refine ⟨?_, by norm_num [cexTeamA], by norm_num [cexTeamA], ?_⟩
  · rw [calculateRequiredNRRRange, cexLeague_derive2]
    norm_num
  · rw [analyzePositionFeasibility]
    simp [cexLeague, cexTeamA, cexTeamY, cexTeamB, bumpLoss, List.filter]
    norm_num

/-- C6 (amended): for desired position 1 the bracket's upper edge is always
the `999` sentinel and the solver returns it unchanged; with the sentinel the
setting-a-total acceptance test degenerates to the lower bound alone; and for
`desiredPosition > 1` with no upper bound set from same-point teams, the upper
bound becomes the NRR of the team ranked immediately above the desired slot
minus `0.001` — except that a missing slot, or a difference of exactly `0`
(JS falsiness), leaves the unbounded `999` sentinel instead. -/
theorem c6_position_one_unbounded_amended :
    (∀ (ytw otl : Team) (allTeams : List Team) (yn onm : String) (mn mx : ℚ),
      bracketDerive ytw allTeams 1 yn onm = .ok (mn, mx) →
      mx = 999 ∧ calculateRequiredNRRRange ytw otl allTeams 1 yn onm = .ok ⟨mn, 999⟩) ∧
    (∀ (yt : Team) (matchOvers yourScore minR r : ℚ),
      restrictAccept yt matchOvers yourScore minR 999 r ↔
        minR ≤ restrictRawNRR yt matchOvers yourScore r) ∧
    (∀ (ytw : Team) (allTeams : List Team) (dp : ℤ) (yn onm : String) (mn : ℚ),
      1 < dp →
      bracketCore ytw allTeams dp yn onm = .ok (mn, 999) →
      bracketDerive ytw allTeams dp yn onm =
        .ok (if mn = -999 then 0.001 else mn, fallbackUpper allTeams dp yn onm)) := by
  refine ⟨?_, ?_, ?_⟩
  · intro ytw otl allTeams yn onm mn mx h
    have hmx : mx = 999 ∧ ∃ mn0 : ℚ, mn = mn0 := by
      rw [bracketDerive] at h
      match hc : bracketCore ytw allTeams 1 yn onm with
      | .error e => rw [hc] at h; exact absurd h (by simp)
      | .ok (mn0, mx0) =>
        rw [hc] at h
        norm_num at h
        exact ⟨h.2.symm, mn, rfl⟩
    refine ⟨hmx.1, ?_⟩
    rw [calculateRequiredNRRRange, h]
    rcases hmx.1 with rfl
    norm_num
  · intro yt matchOvers yourScore minR r
    simp [restrictAccept]
  · intro ytw allTeams dp yn onm mn hdp hc
    rw [bracketDerive, hc]
    have h1 : ¬(dp = 1) := by omega
    norm_num [h1, hdp]

/-- Witness for C6's amended theorem: all three conjuncts instantiated at the
concrete three-team league. -/
theorem c6_position_one_unbounded_amended_witness :
    ((999 : ℚ) = 999 ∧
      calculateRequiredNRRRange cexTeamY cexTeamB cexLeague 1 "Y" "B" = .ok ⟨0.201, 999⟩) ∧
    (restrictAccept cexTeamY 1 1 0 999 0 ↔ (0 : ℚ) ≤ restrictRawNRR cexTeamY 1 1 0) ∧
    bracketDerive cexTeamY cexLeague 2 "Y" "B" =
      .ok (if (0.201 : ℚ) = -999 then 0.001 else 0.201, fallbackUpper cexLeague 2 "Y" "B") := by
  refine ⟨c6_position_one_unbounded_amended.1 cexTeamY cexTeamB cexLeague "Y" "B" 0.201 999
      cexLeague_derive1, c6_position_one_unbounded_amended.2.1 cexTeamY 1 1 0 0, ?_⟩
  exact c6_position_one_unbounded_amended.2.2 cexTeamY cexLeague 2 "Y" "B" 0.201 (by norm_num)
    cexLeague_core

/-! ## Claims about the Feasibility Analyzer and the pipeline -/

theorem bumpLoss_points (t : Team) : (bumpLoss t).points = t.points := rfl

theorem bumpLoss_name (t : Team) : (bumpLoss t).name = t.name := rfl

theorem feas_more_count (ytw : Team) (allTeams : List Team) (yn onm : String)
    (_hn : ytw.name = yn) :
    ((allTeams.map (fun team =>
        if team.name = yn then ytw
        else if team.name = onm then bumpLoss team
        else team)).filter (fun t => decide (ytw.points < t.points))).length =
      (allTeams.filter (fun t => decide (t.name ≠ yn ∧ ytw.points < t.points))).length := by
  induction allTeams with
  | nil => rfl
  | cons t ts ih =>
    simp only [List.map_cons]
    by_cases h1 : t.name = yn
    · rw [if_pos h1]
      simp [List.filter, h1, lt_irrefl, ih]
    · rw [if_neg h1]
      by_cases h2 : t.name = onm
      · rw [if_pos h2]
        by_cases h3 : ytw.points < t.points
        · simp [List.filter, bumpLoss_points, bumpLoss_name, h1, h3, ih]
        · simp [List.filter, bumpLoss_points, bumpLoss_name, h1, h3, ih]
      · rw [if_neg h2]
        by_cases h3 : ytw.points < t.points
        · simp [List.filter, h1, h3, ih]
        · simp [List.filter, h1, h3, ih]

theorem feas_same_count (ytw : Team) (allTeams : List Team) (yn onm : String)
    (hn : ytw.name = yn) :
    ((allTeams.map (fun team =>
        if team.name = yn then ytw
        else if team.name = onm then bumpLoss team
        else team)).filter (fun t =>
          decide (t.points = ytw.points ∧ t.name ≠ yn))).length =
      (allTeams.filter (fun t => decide (t.name ≠ yn ∧ t.points = ytw.points))).length := by
  induction allTeams with
  | nil => rfl
  | cons t ts ih =>
    simp only [List.map_cons, List.filter_cons]
    by_cases h1 : t.name = yn
    · rw [if_pos h1, if_neg (by simp [hn]), if_neg (by simp [h1])]
      exact ih
    · rw [if_neg h1]
      by_cases h2 : t.name = onm
      · rw [if_pos h2]
        by_cases h3 : t.points = ytw.points
        · rw [if_pos (by simp [bumpLoss_points, bumpLoss_name, h1, h3]),
            if_pos (by simp [h1, h3])]
          rw [List.length_cons, List.length_cons, ih]
        · rw [if_neg (by simp [bumpLoss_points, h3]), if_neg (by simp [h3])]
          exact ih
      · rw [if_neg h2]
        by_cases h3 : t.points = ytw.points
        · rw [if_pos (by simp [h1, h3]), if_pos (by simp [h1, h3])]
          rw [List.length_cons, List.length_cons, ih]
        · rw [if_neg (by simp [h3]), if_neg (by simp [h3])]
          exact ih

theorem length_insertTeam (t : Team) (l : List Team) :
    (insertTeam t l).length = l.length + 1 := by
  induction l with
  | nil => rfl
  | cons b bs ih =>
    rw [insertTeam]
    split
    · simp [ih]
    · simp

theorem length_sortTeams (l : List Team) : (sortTeams l).length = l.length := by
  induction l with
  | nil => rfl
  | cons t ts ih => rw [sortTeams, length_insertTeam, ih, List.length_cons]

/-- C2: under the presumed win, `analyzePositionFeasibility` reports the
desired position achievable exactly when it lies between `teamsAbove + 1` and
`teamsAbove + teamsLevel + 1` (counting, among the other teams, strictly
higher and exactly equal points against the post-win total); and whenever it
reports unachievable, `calculateMatchImpact` fails with that analysis' reason
— by construction of its definition the bracket solver and outcome search are
only reached on the achievable branch. -/
theorem c2_feasibility_gate :
    (∀ (ytw opp : Team) (allTeams : List Team) (dp cp : ℤ) (yn onm : String),
      ytw.name = yn →
      ((analyzePositionFeasibility ytw opp allTeams dp cp yn onm).achievable = true ↔
        (((allTeams.filter (fun t =>
            decide (t.name ≠ yn ∧ ytw.points < t.points))).length : ℤ) + 1 ≤ dp ∧
          dp ≤ ((allTeams.filter (fun t =>
              decide (t.name ≠ yn ∧ ytw.points < t.points))).length : ℤ) +
            ((allTeams.filter (fun t =>
              decide (t.name ≠ yn ∧ t.points = ytw.points))).length : ℤ) + 1))) ∧
    (∀ (data : MatchInput) (yt ot : Team) (n1 n2 : ℚ) (ytw otl : Team)
        (updated : List Team) (pa : FeasibilityResult),
      ¬(data.yourTeam = "" ∨ data.oppositionTeam = "" ∨ data.matchOvers = 0 ∨
          data.desiredPosition = 0) →
      ¬(data.runsScored < 0 ∨ data.matchOvers ≤ 0) →
      findTeam getInitialData data.yourTeam = some yt →
      findTeam getInitialData data.oppositionTeam = some ot →
      calculateRevisedNRR (afterWin yt data.runsScored data.matchOvers) data.runsScored
        data.matchOvers ot.againstRuns
        (ot.againstOvers.overs + ot.againstOvers.balls / 6) = .ok n1 →
      calculateRevisedNRR (afterLoss ot data.runsScored data.matchOvers) 0 data.matchOvers
        data.runsScored data.matchOvers = .ok n2 →
      ytw = { afterWin yt data.runsScored data.matchOvers with nrr := n1 } →
      otl = { afterLoss ot data.runsScored data.matchOvers with nrr := n2 } →
      updated = getInitialData.map (fun t =>
        if t.name = data.yourTeam then ytw
        else if t.name = data.oppositionTeam then otl
        else t) →
      ¬(data.desiredPosition < 1 ∨
          ((sortTeams updated).length : ℤ) < data.desiredPosition) →
      pa = analyzePositionFeasibility ytw otl updated data.desiredPosition
        (((sortTeams updated).findIdx (fun t => t.name == data.yourTeam) : ℤ) + 1)
        data.yourTeam data.oppositionTeam →
      pa.achievable = false →
      calculateMatchImpact data = .error (.infeasible pa.reason)) := by
  constructor
  · intro ytw opp allTeams dp cp yn onm hn
    have hmore := feas_more_count ytw allTeams yn onm hn
    have hsame := feas_same_count ytw allTeams yn onm hn
    simp only [analyzePositionFeasibility]
    split_ifs with h1 h2
    · constructor
      · intro hf; simp at hf
      · rintro ⟨hb1, hb2⟩
        exfalso
        omega
    · constructor
      · intro hf; simp at hf
      · rintro ⟨hb1, hb2⟩
        exfalso
        omega
    · constructor
      · intro _
        constructor
        · omega
        · omega
      · intro _
        rfl
  · intro data yt ot n1 n2 ytw otl updated pa hg1 hg2 hyt hot hn1 hn2 hytw hotl hupd hdp
      hpa hach
    subst hytw hotl hupd hpa
    rw [calculateMatchImpact, if_neg hg1, if_neg hg2]
    simp only [hyt, hot, hn1, hn2]
    rw [if_neg hdp]
    simp only [hach, Bool.false_eq_true, if_false]

/-- Witness for C2: the feasibility iff at the concrete three-team league, and
the pipeline error at the Mumbai Indians position-1 request (best possible
position after the presumed win is 4). -/
theorem c2_feasibility_gate_witness :
    ((analyzePositionFeasibility cexTeamY cexTeamB cexLeague 2 1 "Y" "B").achievable = true ↔
      (((cexLeague.filter (fun t =>
          decide (t.name ≠ "Y" ∧ cexTeamY.points < t.points))).length : ℤ) + 1 ≤ 2 ∧
        (2 : ℤ) ≤ ((cexLeague.filter (fun t =>
            decide (t.name ≠ "Y" ∧ cexTeamY.points < t.points))).length : ℤ) +
          ((cexLeague.filter (fun t =>
            decide (t.name ≠ "Y" ∧ t.points = cexTeamY.points))).length : ℤ) + 1)) ∧
    calculateMatchImpact mumbaiReq =
      .error (.infeasible (analyzePositionFeasibility mumbaiAfterWin rajasthanAfterLoss
        mumbaiUpdatedLeague 1
        (((sortTeams mumbaiUpdatedLeague).findIdx
          (fun t => t.name == "Mumbai Indians") : ℤ) + 1)
        "Mumbai Indians" "Rajasthan Royals").reason) := by
  constructor
  · exact c2_feasibility_gate.1 cexTeamY cexTeamB cexLeague 2 1 "Y" "B" rfl
  · refine c2_feasibility_gate.2 mumbaiReq mumbaiTeam rajasthanTeam (-216 / 125) (-343 / 1000)
      mumbaiAfterWin rajasthanAfterLoss mumbaiUpdatedLeague _
      (by simp [mumbaiReq]) (by norm_num [mumbaiReq])
      (by simp [findTeam, getInitialData, mumbaiTeam, List.find?, mumbaiReq])
      (by simp [findTeam, getInitialData, rajasthanTeam, List.find?, mumbaiReq])
      ?_ ?_ rfl rfl rfl ?_ rfl ?_
    · rw [calculateRevisedNRR, if_neg (by
        norm_num [convertOversToDecimal, afterWin, mumbaiTeam, rajasthanTeam, mumbaiReq])]
      rw [revisedNRRval, rawRevisedNRR, truncTo3, ratTrunc]
      norm_num [convertOversToDecimal, afterWin, mumbaiTeam, rajasthanTeam, mumbaiReq,
        Int.ceil_neg]
    · rw [calculateRevisedNRR, if_neg (by
        norm_num [convertOversToDecimal, afterLoss, rajasthanTeam, mumbaiReq])]
      rw [revisedNRRval, rawRevisedNRR, truncTo3, ratTrunc]
      norm_num [convertOversToDecimal, afterLoss, rajasthanTeam, mumbaiReq, Int.ceil_neg]
    · rw [length_sortTeams]
      simp [mumbaiUpdatedLeague, getInitialData, mumbaiReq]
    · rw [analyzePositionFeasibility]
      simp [mumbaiUpdatedLeague, getInitialData, mumbaiAfterWin, rajasthanAfterLoss, afterWin,
        afterLoss, mumbaiTeam, rajasthanTeam, bumpLoss, List.filter, mumbaiReq]
      norm_num

/-! ## Claims about the Outcome Search -/

/-- C10: in chasing mode, when the minimum balls needed to score
`runsValue + 1` exceed the balls available, `computeChaseOversToBeatNRR`
throws the "Cannot score … runs in … overs" error instead of returning a
structured impossible result. -/
theorem c10_chase_unscoreable_throws :
    ∀ (yt ot : Team) (matchOvers targetScore minRequiredNRR maxAllowedNRR : ℚ),
      0 < matchOvers → 0 ≤ targetScore →
      ⌊matchOvers * 6⌋ < ⌈(targetScore + 1) / 6⌉ →
      computeChaseOversToBeatNRR yt ot matchOvers targetScore minRequiredNRR maxAllowedNRR =
        .error (.cannotScore (targetScore + 1) matchOvers) := by
  intro yt ot matchOvers targetScore minRequiredNRR maxAllowedNRR hmo hts hballs
  simp only [computeChaseOversToBeatNRR]
  rw [if_neg (by push_neg; exact ⟨hmo, hts⟩), if_pos hballs]

/-- Witness for C10: chasing 100 inside a single over. -/
theorem c10_chase_unscoreable_throws_witness :
    computeChaseOversToBeatNRR cexTeamY cexTeamB 1 100 0 999 =
      .error (.cannotScore (100 + 1) 1) :=
  c10_chase_unscoreable_throws cexTeamY cexTeamB 1 100 0 999 (by norm_num) (by norm_num)
    (by rw [Int.lt_ceil]; norm_num)

/-- C4: in setting-a-total mode, when no opponent score in `[0, yourScore-1]`
passes the scan's bracket test, `computeRestrictOpponentRuns` returns (not
throws) a result with `impossible = true`, `revisedNRRMax` the Run-Rate
Engine's value for the opponent scoring `0` and `revisedNRRMin` its value for
the opponent scoring `yourScore − 1`. -/
theorem c4_restrict_impossible_result :
    ∀ (yt ot : Team) (matchOvers yourScore minRequiredNRR maxAllowedNRR : ℚ),
      0 < matchOvers → 0 ≤ yourScore →
      0 < convertOversToDecimal yt.forOvers + matchOvers →
      0 < convertOversToDecimal yt.againstOvers + matchOvers →
      (∀ r : ℕ, (r : ℚ) ≤ yourScore - 1 →
        ¬restrictAccept yt matchOvers yourScore minRequiredNRR maxAllowedNRR (r : ℚ)) →
      computeRestrictOpponentRuns yt ot matchOvers yourScore minRequiredNRR maxAllowedNRR =
        .ok { restrictRunsMin := 0, restrictRunsMax := yourScore - 1,
              revisedNRRMin := revisedNRRval yt yourScore matchOvers (yourScore - 1) matchOvers,
              revisedNRRMax := revisedNRRval yt yourScore matchOvers 0 matchOvers,
              impossible := true } := by
  intro yt ot matchOvers yourScore minRequiredNRR maxAllowedNRR hmo hys hf ha hnone
  have hscan : scanFirstLast
      (fun r => decide
        (restrictAccept yt matchOvers yourScore minRequiredNRR maxAllowedNRR (r : ℚ)))
      ⌊yourScore⌋.toNat = none := by
    apply scanFirstLast_eq_none
    intro r hr
    simp only [decide_eq_false_iff_not]
    apply hnone
    have h3 : (r : ℤ) ≤ ⌊yourScore⌋ - 1 := by omega
    have h4 : ((r : ℕ) : ℚ) ≤ ((⌊yourScore⌋ : ℤ) : ℚ) - 1 := by exact_mod_cast h3
    have h5 := Int.floor_le yourScore
    linarith
  have hbest : calculateRevisedNRR yt yourScore matchOvers 0 matchOvers =
      .ok (revisedNRRval yt yourScore matchOvers 0 matchOvers) := by
    rw [calculateRevisedNRR, if_neg (by push_neg; exact ⟨hf, ha⟩)]
  have hworst : calculateRevisedNRR yt yourScore matchOvers (yourScore - 1) matchOvers =
      .ok (revisedNRRval yt yourScore matchOvers (yourScore - 1) matchOvers) := by
    rw [calculateRevisedNRR, if_neg (by push_neg; exact ⟨hf, ha⟩)]
  simp only [computeRestrictOpponentRuns]
  rw [if_neg (by push_neg; exact ⟨hmo, hys⟩)]
  rw [hscan, hbest, hworst]

/-- Witness for C4: with the low-scoring team, one over, a score of 2 and
`minRequiredNRR = 2`, no opponent score in `\x7b0, 1\x7d` qualifies and the
structured impossible result carries the two extreme recomputations. -/
theorem c4_restrict_impossible_result_witness :
    computeRestrictOpponentRuns cexTeamB cexTeamB 1 2 2 999 =
      .ok { restrictRunsMin := 0, restrictRunsMax := 2 - 1,
            revisedNRRMin := revisedNRRval cexTeamB 2 1 (2 - 1) 1,
            revisedNRRMax := revisedNRRval cexTeamB 2 1 0 1,
            impossible := true } :=
  c4_restrict_impossible_result cexTeamB cexTeamB 1 2 2 999 (by norm_num) (by norm_num)
    (by norm_num [convertOversToDecimal, cexTeamB])
    (by norm_num [convertOversToDecimal, cexTeamB])
    (by
      intro r _hr hacc
      rcases hacc with ⟨hA, _⟩
      rw [restrictRawNRR] at hA
      simp only [convertOversToDecimal, cexTeamB] at hA
      have hge0 : (0 : ℚ) ≤ (r : ℚ) := Nat.cast_nonneg r
      norm_num at hA
      linarith)

/-- C9: in both outcome-search modes, every NRR value in a returned result —
possible or impossible — is the Run-Rate Engine's value at the literal
boundary candidate being reported (boundary opponent score, or boundary ball
count / the full-overs finish), never an interpolated estimate. -/
theorem c9_boundary_nrr_consistency :
    (∀ (yt ot : Team) (matchOvers yourScore minRequiredNRR maxAllowedNRR : ℚ)
        (res : RestrictResult),
      computeRestrictOpponentRuns yt ot matchOvers yourScore minRequiredNRR maxAllowedNRR =
        .ok res →
      (res.impossible = true →
        calculateRevisedNRR yt yourScore matchOvers 0 matchOvers = .ok res.revisedNRRMax ∧
        calculateRevisedNRR yt yourScore matchOvers (yourScore - 1) matchOvers =
          .ok res.revisedNRRMin ∧
        res.restrictRunsMin = 0 ∧ res.restrictRunsMax = yourScore - 1) ∧
      (res.impossible = false →
        calculateRevisedNRR yt yourScore matchOvers res.restrictRunsMax matchOvers =
          .ok res.revisedNRRMin ∧
        calculateRevisedNRR yt yourScore matchOvers res.restrictRunsMin matchOvers =
          .ok res.revisedNRRMax)) ∧
    (∀ (yt ot : Team) (matchOvers targetScore minRequiredNRR maxAllowedNRR : ℚ)
        (res : ChaseResult),
      computeChaseOversToBeatNRR yt ot matchOvers targetScore minRequiredNRR maxAllowedNRR =
        .ok res →
      (res.impossible = true →
        calculateRevisedNRR yt (targetScore + 1)
          (ballsToOversDecimal ⌈(targetScore + 1) / 6⌉) targetScore matchOvers =
          .ok res.revisedNRRMax ∧
        calculateRevisedNRR yt (targetScore + 1) matchOvers targetScore matchOvers =
          .ok res.revisedNRRMin ∧
        res.minOvers = ballsToOversDisplay ⌈(targetScore + 1) / 6⌉ ∧
        res.maxOvers = ballsToOversDisplay ⌊matchOvers * 6⌋) ∧
      (res.impossible = false →
        ∃ bmin bmax : ℤ,
          res.minOvers = ballsToOversDisplay bmin ∧
          res.maxOvers = ballsToOversDisplay bmax ∧
          calculateRevisedNRR yt (targetScore + 1) (ballsToOversDecimal bmin) targetScore
            matchOvers = .ok res.revisedNRRMax ∧
          calculateRevisedNRR yt (targetScore + 1) (ballsToOversDecimal bmax) targetScore
            matchOvers = .ok res.revisedNRRMin)) := by
  constructor
  · intro yt ot matchOvers yourScore minRequiredNRR maxAllowedNRR res h
    simp only [computeRestrictOpponentRuns] at h
    split at h
    · cases h
    split at h
    · split at h
      · cases h
      next bestCaseNRR hbest =>
        split at h
        · cases h
        next worstCaseNRR hworst =>
          cases h
          exact ⟨fun _ => ⟨hbest, hworst, rfl, rfl⟩, fun himp => by simp at himp⟩
    · next f l hscan =>
      split at h
      · cases h
      next validNRRMin hmin =>
        split at h
        · cases h
        next validNRRMax hmax =>
          cases h
          exact ⟨fun himp => by simp at himp, fun _ => ⟨hmin, hmax⟩⟩
  · intro yt ot matchOvers targetScore minRequiredNRR maxAllowedNRR res h
    simp only [computeChaseOversToBeatNRR] at h
    split at h
    · cases h
    split at h
    · cases h
    split at h
    · cases h
    next tieNRR htie =>
      split at h
      · split at h
        · split at h
          · cases h
          next bestCaseNRR hbest =>
            split at h
            · cases h
            next worstCaseNRR hworst =>
              cases h
              exact ⟨fun _ => ⟨hbest, hworst, rfl, rfl⟩, fun himp => by simp at himp⟩
        · split at h
          · cases h
          next bmin hminloop =>
            split at h
            · cases h
            next bmax hmaxloop =>
              split at h
              · cases h
              next rMin hrmin =>
                split at h
                · cases h
                next rMax hrmax =>
                  cases h
                  exact ⟨fun himp => by simp at himp,
                    fun _ => ⟨bmin, bmax, rfl, rfl, hrmax, hrmin⟩⟩
      · split at h
        · split at h
          · cases h
          next bestCaseNRR hbest =>
            split at h
            · cases h
            next worstCaseNRR hworst =>
              cases h
              exact ⟨fun _ => ⟨hbest, hworst, rfl, rfl⟩, fun himp => by simp at himp⟩
        · split at h
          · cases h
          next bmin hminloop =>
            split at h
            · cases h
            next bmax hmaxloop =>
              split at h
              · cases h
              next rMin hrmin =>
                split at h
                · cases h
                next rMax hrmax =>
                  cases h
                  exact ⟨fun himp => by simp at himp,
                    fun _ => ⟨bmin, bmax, rfl, rfl, hrmax, hrmin⟩⟩

theorem restrictEval_cexB : computeRestrictOpponentRuns cexTeamB cexTeamB 1 2 0 999 =
    .ok { restrictRunsMin := 0, restrictRunsMax := 1, revisedNRRMin := 1/2,
          revisedNRRMax := 1, impossible := false } := by
  have hp0 : restrictAccept cexTeamB 1 2 0 999 ((0 : ℕ) : ℚ) := by
    rw [restrictAccept, restrictRawNRR]
    norm_num [convertOversToDecimal, cexTeamB]
  have hp1 : restrictAccept cexTeamB 1 2 0 999 ((1 : ℕ) : ℚ) := by
    rw [restrictAccept, restrictRawNRR]
    norm_num [convertOversToDecimal, cexTeamB]
  have hfl : ⌊(2:ℚ)⌋.toNat = 2 := by
    rw [show ⌊(2:ℚ)⌋ = (2 : ℤ) from by norm_num]
    rfl
  have hscan : scanFirstLast
      (fun r => decide (restrictAccept cexTeamB 1 2 0 999 (r : ℚ))) ⌊(2:ℚ)⌋.toNat =
      some (0, 1) := by
    rw [hfl, scanFirstLast, show List.range 2 = [0, 1] from rfl]
    simp only [List.foldl]
    rw [if_pos (decide_eq_true hp0), if_pos (decide_eq_true hp1)]
    simp
  have hmin : calculateRevisedNRR cexTeamB 2 1 ((1 : ℕ) : ℚ) 1 = .ok (1/2) := by
    rw [calculateRevisedNRR, if_neg (by norm_num [convertOversToDecimal, cexTeamB])]
    rw [revisedNRRval, rawRevisedNRR, truncTo3, ratTrunc]
    norm_num [convertOversToDecimal, cexTeamB]
  have hmax : calculateRevisedNRR cexTeamB 2 1 ((0 : ℕ) : ℚ) 1 = .ok 1 := by
    rw [calculateRevisedNRR, if_neg (by norm_num [convertOversToDecimal, cexTeamB])]
    rw [revisedNRRval, rawRevisedNRR, truncTo3, ratTrunc]
    norm_num [convertOversToDecimal, cexTeamB]
  simp only [computeRestrictOpponentRuns]
  rw [if_neg (by norm_num)]
  simp only [hscan, hmin, hmax]
  norm_num

theorem chaseEval_cexB : computeChaseOversToBeatNRR cexTeamB cexTeamB 1 0 100 999 =
    .ok { minOvers := 1/10, maxOvers := 1, revisedNRRMin := 1/2,
          revisedNRRMax := 857/1000, impossible := true } := by
  have hc1 : ⌈((0:ℚ) + 1) / 6⌉ = 1 := by rw [Int.ceil_eq_iff] ; norm_num
  have hc0 : ⌈(0:ℚ) * 6⌉ = 0 := by rw [Int.ceil_eq_iff] ; norm_num
  have hf6 : ⌊(1:ℚ) * 6⌋ = 6 := by norm_num
  have htie : calculateRevisedNRR cexTeamB 0 1 0 1 = .ok 0 := by
    rw [calculateRevisedNRR, if_neg (by norm_num [convertOversToDecimal, cexTeamB])]
    rw [revisedNRRval, rawRevisedNRR, truncTo3, ratTrunc]
    norm_num [convertOversToDecimal, cexTeamB]
  have hb1 : ballsToOversDecimal 1 = 1 / 6 := by
    rw [ballsToOversDecimal, convertOversToDecimalNum,
      show ((1:ℤ).fdiv 6) = 0 from by decide, show ((1:ℤ).tmod 6) = 1 from by decide]
    norm_num
  have hd1 : ballsToOversDisplay 1 = 1 / 10 := by
    rw [ballsToOversDisplay,
      show ((1:ℤ).fdiv 6) = 0 from by decide, show ((1:ℤ).tmod 6) = 1 from by decide]
    norm_num
  have hd6 : ballsToOversDisplay 6 = 1 := by
    rw [ballsToOversDisplay,
      show ((6:ℤ).fdiv 6) = 1 from by decide, show ((6:ℤ).tmod 6) = 0 from by decide]
    norm_num
  have hfm : ⌊((cexTeamB.forRuns + ((0:ℚ) + 1)) /
      (100 + (cexTeamB.againstRuns + 0) / (convertOversToDecimal cexTeamB.againstOvers + 1)) -
      convertOversToDecimal cexTeamB.forOvers) * 6⌋ = -6 := by
    norm_num [cexTeamB, convertOversToDecimal]
  have hbest : calculateRevisedNRR cexTeamB (0 + 1) (ballsToOversDecimal 1) 0 1 =
      .ok (857 / 1000) := by
    rw [hb1, calculateRevisedNRR, if_neg (by norm_num [convertOversToDecimal, cexTeamB])]
    rw [revisedNRRval, rawRevisedNRR, truncTo3, ratTrunc]
    norm_num [convertOversToDecimal, cexTeamB]
  have hworst : calculateRevisedNRR cexTeamB (0 + 1) 1 0 1 = .ok (1 / 2) := by
    rw [calculateRevisedNRR, if_neg (by norm_num [convertOversToDecimal, cexTeamB])]
    rw [revisedNRRval, rawRevisedNRR, truncTo3, ratTrunc]
    norm_num [convertOversToDecimal, cexTeamB]
  simp only [computeChaseOversToBeatNRR]
  rw [if_neg (by norm_num), if_neg (by rw [hc1, hf6]; norm_num), if_pos (trivial : True)]
  simp only [htie]
  rw [if_pos (by
    refine ⟨?_, Or.inl (by norm_num)⟩
    rw [hc0, hc1, hf6, hfm]
    norm_num)]
  rw [hc1]
  simp only [hbest, hworst]
  rw [hf6, hd1, hd6]

/-- Witness for C9: both modes applied at concrete inputs — the possible case
of the setting-a-total search (score 2 in one over) and the impossible case of
the chase search (`minRequiredNRR = 100`). -/
theorem c9_boundary_nrr_consistency_witness :
    (calculateRevisedNRR cexTeamB 2 1 (1 : ℚ) 1 = .ok (1 / 2) ∧
      calculateRevisedNRR cexTeamB 2 1 (0 : ℚ) 1 = .ok 1) ∧
    (calculateRevisedNRR cexTeamB (0 + 1) (ballsToOversDecimal ⌈((0 : ℚ) + 1) / 6⌉) 0 1 =
        .ok (857 / 1000) ∧
      calculateRevisedNRR cexTeamB (0 + 1) 1 0 1 = .ok (1 / 2) ∧
      (1 / 10 : ℚ) = ballsToOversDisplay ⌈((0 : ℚ) + 1) / 6⌉ ∧
      (1 : ℚ) = ballsToOversDisplay ⌊(1 : ℚ) * 6⌋) := by
  have h1 := (c9_boundary_nrr_consistency.1 cexTeamB cexTeamB 1 2 0 999 _ restrictEval_cexB).2
    rfl
  have h2 := (c9_boundary_nrr_consistency.2 cexTeamB cexTeamB 1 0 100 999 _ chaseEval_cexB).1
    rfl
  exact ⟨⟨h1.1, h1.2⟩, ⟨h2.1, h2.2.1, h2.2.2.1, h2.2.2.2⟩⟩
